import Mathlib

/-!
Verification of the texpect-cisco session driver (src/texpect_cisco/cisco.py)
against its natural-language specification.

Shallow embedding conventions:
- Python `str` is modelled as `List Char` (`Str`); `S` turns a Lean string
  literal into that representation.
- The asynchronous engine (texpect) is external: each pattern-wait performed
  by an operation is modelled by an `ExpectOutcome` argument describing what
  the engine reported for that wait (pattern matched at some position /
  `RequestTimeout`-style failure / `RequestInterruptedByConnectionLoss` /
  some failure not derived from `RequestFailed`).
- Each operation returns the list of I/O events it performed on the
  transport (writes and pattern-waits, in order) together with its settled
  result.  Twisted deferred-callback chains are sequential, so each chain is
  translated into a plain cascade of matches; `failure.trap(Cls)` becomes a
  match on the failure kind (re-raising, i.e. returning the failure
  unchanged, when the kind is not the trapped class).
- A missing key in the device mapping raises Python `KeyError`; this is the
  `key_error` failure kind, produced at the exact point the source reads the
  key.
-/

namespace TexpectCisco

/-- Python strings are modelled as lists of characters. -/
abbrev Str := List Char

/-- Turn a Lean string literal into the `Str` model. -/
def S (s : String) : Str := s.data

/-- Python `str.strip()` / `lstrip()` whitespace set (ASCII part):
space, tab, newline, carriage return, vertical tab, form feed. -/
def is_space (c : Char) : Bool :=
  c = ' ' || c = '\t' || c = '\n' || c = '\r' || c = '\x0b' || c = '\x0c'

/-- Python `str.lstrip()` (no argument): drop leading whitespace. -/
def lstrip (s : Str) : Str := s.dropWhile is_space

/-- Python `str.rstrip()` (no argument): drop trailing whitespace. -/
def rstrip (s : Str) : Str := (s.reverse.dropWhile is_space).reverse

/-- Python `str.strip()` (no argument). -/
def strip (s : Str) : Str := rstrip (lstrip s)

/-- Python `s.startswith(pre)`. -/
def startswith (s pre : Str) : Bool := pre.isPrefixOf s

/-- Python `s.split('\n')`: split on every newline; a text with `n`
newlines yields `n + 1` parts (the empty text yields `[""]`). -/
def split_nl : Str → List Str
  | [] => [[]]
  | c :: rest =>
    if c = '\n' then [] :: split_nl rest
    else
      match split_nl rest with
      | [] => [[c]]
      | r :: rs => (c :: r) :: rs

/-- Python `'\n'.join(lines)`. -/
def join_nl : List Str → Str
  | [] => []
  | [l] => l
  | l :: l2 :: rest => l ++ '\n' :: join_nl (l2 :: rest)

/-- Clamp one Python slice bound to an index of a list of length `len`
(negative bounds count from the end, as in Python). -/
def py_bound (len : Nat) (i : Int) : Nat :=
  if i < 0 then ((len : Int) + i).toNat else min i.toNat len

/-- Python slice `l[a:b]` (step 1), with Python's negative-index and
clamping semantics. -/
def py_slice (l : List α) (a b : Int) : List α :=
  (l.take (py_bound l.length b)).drop (py_bound l.length a)

/-- Escape one character the way a single-quoted Python `repr` does
(printable-ASCII fragment of the rules, which covers the texts the driver
ever formats). -/
def py_escape_sq (c : Char) : Str :=
  if c = '\\' then ['\\', '\\']
  else if c = '\x27' then ['\\', '\x27']
  else if c = '\n' then ['\\', 'n']
  else if c = '\r' then ['\\', 'r']
  else if c = '\t' then ['\\', 't']
  else [c]

/-- Escape one character the way a double-quoted Python `repr` does. -/
def py_escape_dq (c : Char) : Str :=
  if c = '\\' then ['\\', '\\']
  else if c = '"' then ['\\', '"']
  else if c = '\n' then ['\\', 'n']
  else if c = '\r' then ['\\', 'r']
  else if c = '\t' then ['\\', 't']
  else [c]

/-- Python `repr` of a string (`%r` formatting): single-quoted unless the
text contains a single quote and no double quote. -/
def py_repr (s : Str) : Str :=
  if s.contains '\x27' && !(s.contains '"') then
    '"' :: (s.map py_escape_dq).flatten ++ ['"']
  else
    '\x27' :: (s.map py_escape_sq).flatten ++ ['\x27']

/-- Python `%s` formatting of a list of strings: `repr` of each element,
comma-separated, in brackets. -/
def py_repr_list (ls : List Str) : Str :=
  '[' :: (List.intercalate (S ", ") (ls.map py_repr)) ++ [']']

/-- Outcome the external texpect engine reports for one pattern-wait
(`expect([...])` / `read_until(...)` / `read_to_prompt(...)`):
`matched start data` is success (`(pattern_index, match_object, data)`,
with `start` the match object's `.start()`); `timeout` is a
`RequestTimeout`-style `RequestFailed` that is not a connection loss;
`conn_lost` is `RequestInterruptedByConnectionLoss` (a `RequestFailed`);
`engine_other` is a failure not derived from `RequestFailed`. -/
inductive ExpectOutcome where
  | matched (start : Nat) (data : Str)
  | timeout (data : Str)
  | conn_lost (data : Str)
  | engine_other
deriving DecidableEq, Repr

/-- One I/O action performed by the driver on the transport: a `write`, or
a pattern-wait handed to the external engine. -/
inductive IOEvent where
  | write (s : Str)
  | wait (patterns : List Str)
deriving DecidableEq, Repr

/-- Attributes shared by every `TExpectCiscoError` (cisco.py lines 63-91):
`msg`, `command` (default `None`), `data` (default `None`). -/
structure ErrorInfo where
  msg : Str
  command : Option Str
  data : Option Str
deriving DecidableEq, Repr

/-- Failure settled by an operation: one of the driver's exception classes
(each carrying its `TExpectCiscoError` attributes; `cisco_command_error`
additionally carries the extracted `error` text), a Python `KeyError` from
a missing device key, or an untrapped engine failure propagated
unchanged. -/
inductive CiscoFailure where
  | unexpected_result (e : ErrorInfo)
  | cisco_command_error (e : ErrorInfo) (error : Str)
  | disconnected (e : ErrorInfo)
  | login_failed (e : ErrorInfo)
  | enable_failed (e : ErrorInfo)
  | not_connected (e : ErrorInfo)
  | key_error (key : String)
  | engine_untrapped
deriving DecidableEq, Repr

/-- The device mapping (cisco.py `Device`), restricted to the keys the
verified operations read.  A field holding `none` models a key absent from
the mapping; `id` is kept mandatory because every scenario under
verification interpolates it into messages. -/
structure Device where
  id : Str
  prompt : Option Str := none
  enabled_prompt : Option Str := none
  password_prompt : Option Str := none
  password : Option Str := none
  enable_command : Option Str := none
  enable_password_prompt : Option Str := none
  enable_password : Option Str := none
  disable_paging : Bool := false
  disable_paging_command : Option Str := none
deriving DecidableEq, Repr

/-- Python `device[key]`: the value when the key is present, `KeyError`
otherwise. -/
def dev_get (v : Option Str) (key : String) : Except CiscoFailure Str :=
  match v with
  | some s => .ok s
  | none => .error (.key_error key)

/-- Message of the `NotConnected` error (cisco.py line 347). -/
def not_connected_msg (id : Str) : Str :=
  S "Not connected to " ++ id ++ S " at the moment"

/-- Message of the `Disconnected` error (cisco.py line 417). -/
def disconnected_msg : Str := S "Command resulted in a disconnection"

/-- Message of the `UnexpectedResultError` built by `_on_command_error`
(cisco.py lines 419-422). -/
def unexpected_cmd_msg (cmd : Str) (patterns : List Str) (data : Str) : Str :=
  S "Error running command \x27" ++ cmd ++ S "\x27. Expected: "
    ++ py_repr_list patterns ++ S ", got " ++ py_repr data

/-- Message of the `UnexpectedResultError` built by `_no_password_prompt`
(cisco.py lines 262-265). -/
def no_password_prompt_msg (patterns : List Str) (data : Str) : Str :=
  S "Did not get what we expected. Expected: " ++ py_repr_list patterns
    ++ S ", got " ++ py_repr data

/-- Message of the `CiscoCommandError` built by `_process_command_result`
(cisco.py lines 462-464). -/
def cisco_command_error_msg (id cmd : Str) : Str :=
  S "An error was reported by the device \"" ++ id
    ++ S "\" while running the command \"" ++ cmd ++ S "\""

/-- Message of the `LoginFailed` error (cisco.py lines 298-299). -/
def login_failed_msg (id : Str) : Str := S "Failed to log in to " ++ id

/-- Message of the `EnableFailed` error (cisco.py lines 568-569). -/
def enable_failed_msg (id : Str) : Str :=
  S "Failed to enter privileged EXEC mode on " ++ id

/-- The text Cisco devices put in caret-style error lines; the classifier
looks for it with `line.find("\x27^\x27 marker") != -1`
(cisco.py line 504). -/
def marker_tag : Str := S "\x27^\x27 marker"

/-- Python `s.find(pat) != -1`: `pat` occurs somewhere in `s`. -/
def contains_sub (pat : Str) : Str → Bool
  | [] => startswith [] pat
  | c :: rest => startswith (c :: rest) pat || contains_sub pat rest

/-- Scan of the `for ind, line in enumerate(lines)` loop of
`_process_device_errors` (cisco.py lines 502-503): first index (counting
from `i`) and line such that `line.startswith('%')`. -/
def find_pct : List Str → Nat → Option (Nat × Str)
  | [], _ => none
  | l :: rest, i =>
    if startswith l (S "%") then some (i, l) else find_pct rest (i + 1)

/-- `Cisco._process_device_errors` (cisco.py lines 471-512): split the data
into lines, find the first line starting with `'%'`; with the caret-marker
tag present take `lines[ind-1:ind+2]` as the error and
`lines[:ind-1] + lines[ind+2:]` as the rest, otherwise take the single
line `lines[ind:ind+1]` and `lines[:ind] + lines[ind+1:]`; `None` when no
line starts with `'%'`. -/
def process_device_errors (data : Str) : Option (List Str × List Str) :=
  let lines := split_nl data
  match find_pct lines 0 with
  | some (ind, line) =>
    if contains_sub marker_tag line then
      some (py_slice lines ((ind : Int) - 1) ((ind : Int) + 2),
            py_slice lines 0 ((ind : Int) - 1)
              ++ py_slice lines ((ind : Int) + 2) (lines.length : Int))
    else
      some (py_slice lines (ind : Int) ((ind : Int) + 1),
            py_slice lines 0 (ind : Int)
              ++ py_slice lines ((ind : Int) + 1) (lines.length : Int))
  | none => none

/-- The `strip_command` step of `_process_command_result` (cisco.py lines
455-457): when the data begins with the exact command text, drop that
prefix and the immediately following whitespace. -/
def strip_command_step (data cmd : Str) : Str :=
  if startswith data cmd then lstrip (data.drop cmd.length) else data

/-- The output-cleaning part of `_process_command_result` (cisco.py lines
451-457): optionally cut the text at the match start, strip surrounding
whitespace, optionally strip the echoed command. -/
def clean_output (start : Nat) (data cmd : Str)
    (strip_command strip_prompt : Bool) : Str :=
  let d1 := if strip_prompt then data.take start else data
  let d2 := strip d1
  if strip_command then strip_command_step d2 cmd else d2

/-- `Cisco._process_command_result` (cisco.py lines 424-469): clean the
captured text, then (when `process_errors` is set) fail with
`CiscoCommandError` when the device-error classifier finds a banner —
carrying the command, the joined error lines and, as `data`, the cleaned
text itself (the classifier's second component is discarded, line 461). -/
def process_command_result (start : Nat) (data : Str) (dev_id cmd : Str)
    (strip_command strip_prompt process_errors : Bool) :
    Except CiscoFailure Str :=
  let d := clean_output start data cmd strip_command strip_prompt
  if process_errors then
    match process_device_errors d with
    | some (error_lines, _) =>
      .error (.cisco_command_error
        ⟨cisco_command_error_msg dev_id cmd, some cmd, some d⟩
        (join_nl error_lines))
    | none => .ok d
  else .ok d

/-- `Cisco.run_command` (cisco.py lines 301-369) with its two handlers
`_process_command_result` and `_on_command_error` (lines 371-469).
Arguments: the device, the session's `enabled` and `eof` flags, the
command, the optional prompt override, the engine's outcome for the
single `expect([prompt])` wait, and the four toggles.  Returns the I/O
trace and the settled result. -/
def run_command (dev : Device) (enabled eof : Bool) (command : Str)
    (prompt_arg : Option Str) (outcome : ExpectOutcome)
    (strip_command strip_prompt process_errors may_disconnect : Bool) :
    List IOEvent × Except CiscoFailure Str :=
  if eof then
    ([], .error (.not_connected
      ⟨not_connected_msg dev.id, some command, none⟩))
  else
    match (match prompt_arg with
           | some p => Except.ok p
           | none =>
             if enabled then dev_get dev.enabled_prompt "enabled_prompt"
             else dev_get dev.prompt "prompt") with
    | .error e => ([], .error e)
    | .ok prompt =>
      let cmd := strip command
      let trace := [IOEvent.write (cmd ++ S "\n"), IOEvent.wait [prompt]]
      match outcome with
      | .matched start data =>
        (trace, process_command_result start data dev.id cmd
          strip_command strip_prompt process_errors)
      | .timeout data =>
        (trace, .error (.unexpected_result
          ⟨unexpected_cmd_msg cmd [prompt] data, none, none⟩))
      | .conn_lost data =>
        (trace,
          if may_disconnect then
            -- `strip_prompt` is unconditionally set to `False`; the first
            -- two items of the faked result are not needed (lines 410-415),
            -- so the match start is a dummy 0 here.
            process_command_result 0 data dev.id cmd
              strip_command false process_errors
          else
            .error (.disconnected ⟨disconnected_msg, some cmd, some data⟩))
      | .engine_other => (trace, .error .engine_untrapped)

/-- `Cisco.enable` (cisco.py lines 515-541) with `_on_enable` and
`_on_enable_failure` (lines 543-569).  `escalation` is the engine outcome
for the escalation `run_command` (terminated by the enable-password
prompt); `prompt_wait` is the outcome of the `read_to_prompt` on the
privileged prompt.  Returns the I/O trace, the settled result and the
session's `enabled` flag after the operation. -/
def enable (dev : Device) (enabled eof : Bool)
    (escalation prompt_wait : ExpectOutcome) :
    List IOEvent × Except CiscoFailure Str × Bool :=
  match dev_get dev.enable_command "enable_command" with
  | .error e => ([], .error e, enabled)
  | .ok ecmd =>
    match dev_get dev.enable_password_prompt "enable_password_prompt" with
    | .error e => ([], .error e, enabled)
    | .ok epp =>
      match run_command dev enabled eof ecmd (some epp) escalation
              true true true false with
      | (tr, .error e) =>
        -- `_on_enable_failure` traps only raw `RequestFailed`; the domain
        -- errors already produced by the command cycle are re-raised.
        (tr, .error e, enabled)
      | (tr, .ok _) =>
        match dev_get dev.enable_password "enable_password" with
        | .error e => (tr, .error e, enabled)
        | .ok epw =>
          let tr2 := tr ++ [IOEvent.write (epw ++ S "\n")]
          match dev_get dev.enabled_prompt "enabled_prompt" with
          | .error e => (tr2, .error e, enabled)
          | .ok eprompt =>
            let tr3 := tr2 ++ [IOEvent.wait [eprompt]]
            match prompt_wait with
            | .matched _ d => (tr3, .ok d, true)
            | .timeout d =>
              (tr3, .error (.enable_failed
                ⟨enable_failed_msg dev.id, none, some d⟩), enabled)
            | .conn_lost d =>
              (tr3, .error (.enable_failed
                ⟨enable_failed_msg dev.id, none, some d⟩), enabled)
            | .engine_other => (tr3, .error .engine_untrapped, enabled)

/-- `Cisco.login` (cisco.py lines 228-299) with its handlers
`_no_password_prompt`, `_on_login_success`, `_on_login_failure`.
`pw_wait` is the engine outcome for the `read_until(password_prompt)`
wait, `post_wait` the outcome for the `read_to_prompt()` wait after the
password is written, and `paging` the outcome for the paging-disable
`run_command` issued by `_on_login_success` when `disable_paging` is set.
Returns the I/O trace and the settled result. -/
def login (dev : Device) (enabled eof : Bool)
    (pw_wait post_wait paging : ExpectOutcome) :
    List IOEvent × Except CiscoFailure Str :=
  match dev_get dev.password_prompt "password_prompt" with
  | .error e => ([], .error e)
  | .ok pp =>
    let tr0 := [IOEvent.wait [pp]]
    match pw_wait with
    | .timeout d =>
      -- `_no_password_prompt` traps `RequestTimeout` and substitutes an
      -- `UnexpectedResultError` (with `data` set); `_on_login_failure`
      -- then re-raises it, since it is not a `RequestFailed`.
      (tr0, .error (.unexpected_result
        ⟨no_password_prompt_msg [pp] d, none, some d⟩))
    | .conn_lost d =>
      -- Not a `RequestTimeout`, so `_no_password_prompt` re-raises it and
      -- `_on_login_failure` traps it as a `RequestFailed`.
      (tr0, .error (.login_failed ⟨login_failed_msg dev.id, none, some d⟩))
    | .engine_other => (tr0, .error .engine_untrapped)
    | .matched _ _ =>
      match dev_get dev.password "password" with
      | .error e => (tr0, .error e)
      | .ok pw =>
        let tr1 := tr0 ++ [IOEvent.write (pw ++ S "\n")]
        match (if enabled then dev_get dev.enabled_prompt "enabled_prompt"
               else dev_get dev.prompt "prompt") with
        | .error e => (tr1, .error e)
        | .ok pr =>
          let tr2 := tr1 ++ [IOEvent.wait [pr]]
          match post_wait with
          | .matched _ d =>
            if dev.disable_paging then
              match dev_get dev.disable_paging_command
                      "disable_paging_command" with
              | .error e => (tr2, .error e)
              | .ok dpc =>
                match run_command dev enabled eof dpc none paging
                        true true true false with
                | (tr3, r) => (tr2 ++ tr3, r)
            else (tr2, .ok d)
          | .timeout d =>
            (tr2, .error (.login_failed
              ⟨login_failed_msg dev.id, none, some d⟩))
          | .conn_lost d =>
            (tr2, .error (.login_failed
              ⟨login_failed_msg dev.id, none, some d⟩))
          | .engine_other => (tr2, .error .engine_untrapped)

/-- Output-classifier cleaning pipeline as the specification words it
(spec section 4.1, steps 1-3, in order): discard from the matched
boundary on when strip-prompt is set; trim surrounding whitespace; remove
the exact command prefix and immediately following whitespace when
strip-command is set.  Written from the spec for comparison against
`clean_output`, which is written from the code. -/
def classifier_spec_steps (boundary : Nat) (text cmd : Str)
    (strip_command strip_prompt : Bool) : Str :=
  let step1 := if strip_prompt then text.take boundary else text
  let step2 := strip step1
  if strip_command && startswith step2 cmd then
    lstrip (step2.drop cmd.length)
  else step2

theorem startswith_append (pre t : Str) : startswith (pre ++ t) pre = true := by
  induction pre with
  | nil => simp [startswith, List.isPrefixOf]
  | cons a as _ => simp [startswith, List.isPrefixOf]

theorem lstrip_append_space (w rest : Str) (h : ∀ c ∈ w, is_space c = true) :
    lstrip (w ++ rest) = lstrip rest := by
  induction w with
  | nil => rfl
  | cons c cs ih =>
    have hc : is_space c = true := h c (by simp)
    simpa [lstrip, List.dropWhile_cons, hc] using
      ih fun d hd => h d (by simp [hd])

theorem lstrip_no_space (rest : Str)
    (h : ∀ c, rest.head? = some c → is_space c = false) : lstrip rest = rest := by
  cases rest with
  | nil => rfl
  | cons c t =>
    have hc : is_space c = false := h c rfl
    simp [lstrip, List.dropWhile_cons, hc]

theorem split_nl_ne_nil (s : Str) : split_nl s ≠ [] := by
  induction s with
  | nil => simp [split_nl]
  | cons c rest ih =>
    unfold split_nl
    by_cases hc : c = '\n'
    · simp [hc]
    · simp only [hc, if_false]
      cases h : split_nl rest with
      | nil => simp
      | cons r rs => simp

theorem split_nl_no_nl (l : Str) (h : '\n' ∉ l) : split_nl l = [l] := by
  induction l with
  | nil => rfl
  | cons c cs ih =>
    have hc : ¬ c = '\n' := fun hcc => h (by simp [hcc])
    have ih2 := ih fun hm => h (by simp [hm])
    unfold split_nl
    simp only [hc, if_false, ih2]

theorem split_nl_append (l rest : Str) (h : '\n' ∉ l) :
    split_nl (l ++ '\n' :: rest) = l :: split_nl rest := by
  induction l with
  | nil => simp [split_nl]
  | cons c cs ih =>
    have hc : ¬ c = '\n' := fun hcc => h (by simp [hcc])
    have ih2 := ih fun hm => h (by simp [hm])
    rw [List.cons_append]
    conv_lhs => unfold split_nl
    simp only [hc, if_false, ih2]

theorem split_nl_join (L : List Str) (hne : L ≠ [])
    (h : ∀ l ∈ L, '\n' ∉ l) : split_nl (join_nl L) = L := by
  induction L with
  | nil => exact absurd rfl hne
  | cons l rest ih =>
    cases rest with
    | nil => exact split_nl_no_nl l (h l (by simp))
    | cons l2 rest2 =>
      have h1 : '\n' ∉ l := h l (by simp)
      have h2 : ∀ x ∈ l2 :: rest2, '\n' ∉ x := fun x hx => h x (by simp [hx])
      calc split_nl (join_nl (l :: l2 :: rest2))
          = split_nl (l ++ '\n' :: join_nl (l2 :: rest2)) := rfl
        _ = l :: split_nl (join_nl (l2 :: rest2)) := split_nl_append _ _ h1
        _ = l :: (l2 :: rest2) := by rw [ih (by simp) h2]

theorem find_pct_append (pre rest : List Str) (i : Nat)
    (h : ∀ l ∈ pre, startswith l (S "%") = false) :
    find_pct (pre ++ rest) i = find_pct rest (i + pre.length) := by
  induction pre generalizing i with
  | nil => simp [find_pct]
  | cons a as ih =>
    have ha : startswith a (S "%") = false := h a (by simp)
    have ih2 := ih (i + 1) fun l hl => h l (by simp [hl])
    have harith : i + 1 + as.length = i + (as.length + 1) := by omega
    simp only [List.cons_append, find_pct, ha, Bool.false_eq_true, if_false,
      List.length_cons]
    rw [← harith]
    exact ih2

theorem py_bound_coe (len k : Nat) (h : k ≤ len) :
    py_bound len (k : Int) = k := by
  unfold py_bound
  rw [if_neg (by omega : ¬ ((k : Int) < 0)), Int.toNat_natCast]
  exact min_eq_left h

theorem strip_command_step_nil (c : Str) : strip_command_step [] c = [] := by
  unfold strip_command_step
  split <;> simp [lstrip]

theorem clean_output_nil (m : Nat) (c : Str) (sc sp : Bool) :
    clean_output m [] c sc sp = [] := by
  unfold clean_output
  cases sp <;> cases sc <;>
    simp [strip, lstrip, rstrip, strip_command_step_nil]

theorem process_command_result_nil (m : Nat) (idv c : Str) (sc sp pe : Bool) :
    process_command_result m [] idv c sc sp pe = .ok [] := by
  unfold process_command_result
  rw [clean_output_nil]
  cases pe <;> simp [show process_device_errors [] = none from rfl]

theorem run_command_matched_nil (dev : Device) (en : Bool) (c p : Str) :
    run_command dev en false c (some p) (.matched 0 []) true true true false
    = ([.write (strip c ++ S "\n"), .wait [p]], .ok []) := by
  show ([IOEvent.write (strip c ++ S "\n"), IOEvent.wait [p]],
    process_command_result 0 [] dev.id (strip c) true true true) = _
  rw [process_command_result_nil]

theorem take_pre_three (pre post : List α) (a b c : α) :
    (pre ++ a :: b :: c :: post).take (pre.length + 3) = pre ++ [a, b, c] := by
  rw [List.take_append_eq_append_take,
    List.take_of_length_le (by omega : pre.length ≤ pre.length + 3),
    Nat.add_sub_cancel_left]
  rfl

theorem drop_pre_three (pre post : List α) (a b c : α) :
    (pre ++ a :: b :: c :: post).drop (pre.length + 3) = post := by
  have h : pre ++ a :: b :: c :: post = (pre ++ [a, b, c]) ++ post := by simp
  rw [h]
  exact List.drop_left' (by simp)

theorem len_pre_three (pre post : List α) (a b c : α) :
    (pre ++ a :: b :: c :: post).length = pre.length + 3 + post.length := by
  simp
  omega

theorem py_slice_sub1 (pre post : List α) (a b c : α) :
    py_slice (pre ++ a :: b :: c :: post)
      (((pre.length + 1 : Nat) : Int) - 1) (((pre.length + 1 : Nat) : Int) + 2)
    = [a, b, c] := by
  have h1 : ((pre.length + 1 : Nat) : Int) - 1 = ((pre.length : Nat) : Int) := by
    push_cast
    ring
  have h2 : ((pre.length + 1 : Nat) : Int) + 2 = ((pre.length + 3 : Nat) : Int) := by
    push_cast
    ring
  rw [h1, h2]
  unfold py_slice
  rw [len_pre_three,
    py_bound_coe _ _ (by omega),
    py_bound_coe _ _ (by omega),
    take_pre_three]
  exact List.drop_left' rfl

theorem py_slice_sub2 (pre post : List α) (a b c : α) :
    py_slice (pre ++ a :: b :: c :: post) 0 (((pre.length + 1 : Nat) : Int) - 1)
    = pre := by
  have h1 : ((pre.length + 1 : Nat) : Int) - 1 = ((pre.length : Nat) : Int) := by
    push_cast
    ring
  have h0 : (0 : Int) = ((0 : Nat) : Int) := rfl
  rw [h1]
  unfold py_slice
  rw [len_pre_three, h0,
    py_bound_coe _ _ (by omega),
    py_bound_coe _ _ (by omega),
    List.take_left' rfl, List.drop_zero]

theorem py_slice_sub3 (pre post : List α) (a b c : α) :
    py_slice (pre ++ a :: b :: c :: post) (((pre.length + 1 : Nat) : Int) + 2)
      (((pre ++ a :: b :: c :: post).length : Nat) : Int)
    = post := by
  have h2 : ((pre.length + 1 : Nat) : Int) + 2 = ((pre.length + 3 : Nat) : Int) := by
    push_cast
    ring
  rw [h2]
  unfold py_slice
  rw [len_pre_three,
    py_bound_coe _ _ (by omega),
    py_bound_coe _ _ (by omega)]
  rw [← len_pre_three pre post a b c, List.take_length]
  exact drop_pre_three pre post a b c

end TexpectCisco

deriving instance DecidableEq for Except

namespace TexpectCisco

/-- C5: when the terminating pattern is not matched and the stream stays
open (a `RequestFailed` that is not a connection loss), `run_command`
fails with `UnexpectedResultError`; the error's message is built from the
offending command, the expected pattern(s) and the text accumulated so
far (`_on_command_error`, cisco.py lines 419-422; the structured
`command`/`data` attributes are left at their `None` defaults on this
path). -/
theorem c5_timeout_unexpected_result (dev : Device) (en : Bool)
    (cmd p d : Str) (sc sp pe md : Bool) :
    run_command dev en false cmd (some p) (.timeout d) sc sp pe md
    = ([.write (strip cmd ++ S "\n"), .wait [p]],
       .error (.unexpected_result
         ⟨unexpected_cmd_msg (strip cmd) [p] d, none, none⟩)) := rfl

/-- C6: `run_command` on a session already marked closed (`eof` true)
fails immediately with `NotConnected` carrying the command, and its I/O
trace is empty: no write and no pattern-wait reaches the transport
(cisco.py lines 346-348). -/
theorem c6_not_connected_no_io (dev : Device) (en : Bool) (cmd : Str)
    (p : Option Str) (o : ExpectOutcome) (sc sp pe md : Bool) :
    run_command dev en true cmd p o sc sp pe md
    = ([], .error (.not_connected
        ⟨not_connected_msg dev.id, some cmd, none⟩)) := rfl

/-- C7: when the stream ends before the pattern matches, a `run_command`
with the connection-loss-is-expected flag set behaves exactly as the
success path on the accumulated text with strip-trailing-prompt forcibly
disabled, while without the flag it fails with `Disconnected` carrying
the accumulated text (`_on_command_error`, cisco.py lines 410-418). -/
theorem c7_conn_lost_expected_or_disconnected (dev : Device) (en : Bool)
    (cmd p d : Str) (sc sp pe : Bool) :
    run_command dev en false cmd (some p) (.conn_lost d) sc sp pe true
      = run_command dev en false cmd (some p) (.matched 0 d) sc false pe false
    ∧ run_command dev en false cmd (some p) (.conn_lost d) sc sp pe false
      = ([.write (strip cmd ++ S "\n"), .wait [p]],
         .error (.disconnected
           ⟨disconnected_msg, some (strip cmd), some d⟩)) :=
  ⟨rfl, rfl⟩

/-- C8: the Output Classifier applies its steps in order — cut at the
matched boundary when strip-prompt is set, trim surrounding whitespace,
then remove the exact command prefix plus following whitespace when
strip-command is set: the code's cleaning (`_process_command_result`,
cisco.py lines 451-457) coincides with the spec's step pipeline
(`classifier_spec_steps`), and on the spec's worked example
(`"show run\n...\ndevice>"`, default toggles) the result is exactly
`"Some command output"`. -/
theorem c8_steps_in_order_and_example :
    (∀ (start : Nat) (text idv cmd : Str) (sc sp : Bool),
      process_command_result start text idv cmd sc sp false
        = .ok (classifier_spec_steps start text cmd sc sp))
    ∧ run_command
        ⟨S "device", some (S "device>"), none, none, none, none, none, none,
         false, none⟩
        false false (S "show run") none
        (.matched 29 (S "show run\nSome command output\ndevice>"))
        true true true false
      = ([.write (S "show run\n"), .wait [S "device>"]],
         .ok (S "Some command output")) := by
  constructor
  · intro start text idv cmd sc sp
    unfold process_command_result clean_output classifier_spec_steps
      strip_command_step
    cases sc <;> simp
  · decide

/-- C9: the strip-echoed-command step removes exactly one leading
occurrence of the command text plus its immediately following whitespace
and nothing more: for any text of the form command ++ whitespace ++ rest
(with `rest` not starting with whitespace) the result is exactly `rest` —
in particular everything in `rest` survives even when it begins with or
repeats the command text (cisco.py lines 455-457). -/
theorem c9_strip_exactly_one_occurrence (cmd w rest : Str)
    (hw : ∀ c ∈ w, is_space c = true) (hr : lstrip rest = rest) :
    strip_command_step (cmd ++ w ++ rest) cmd = rest := by
  unfold strip_command_step
  rw [List.append_assoc, startswith_append, if_pos rfl, List.drop_left,
    lstrip_append_space w rest hw, hr]

/-- Witness for C9: stripping `"show run"` from
`"show run show run x"` leaves `"show run x"` — the second occurrence of
the command survives. -/
theorem c9_witness :
    strip_command_step (S "show run" ++ S " " ++ S "show run x")
      (S "show run") = S "show run x" :=
  c9_strip_exactly_one_occurrence (S "show run") (S " ") (S "show run x")
    (by decide) (by decide)

/-- C10: in `login()`, the post-password prompt wait's failure handler
(`_on_login_failure`, cisco.py lines 289-299) traps every `RequestFailed`
— including `RequestInterruptedByConnectionLoss` — so a login during
which the password prompt is seen but the stream then closes (or the
prompt wait times out) fails with `LoginFailed`, never `Disconnected`. -/
theorem c10_login_post_password_failures (idv pr pw pp x d : Str)
    (epo eco eppo epwo dpco : Option Str) (dp : Bool) (m : Nat)
    (pg : ExpectOutcome) :
    login ⟨idv, some pr, epo, some pp, some pw, eco, eppo, epwo, dp, dpco⟩
      false false (.matched m x) (.conn_lost d) pg
      = ([.wait [pp], .write (pw ++ S "\n"), .wait [pr]],
         .error (.login_failed ⟨login_failed_msg idv, none, some d⟩))
    ∧ login ⟨idv, some pr, epo, some pp, some pw, eco, eppo, epwo, dp, dpco⟩
      false false (.matched m x) (.timeout d) pg
      = ([.wait [pp], .write (pw ++ S "\n"), .wait [pr]],
         .error (.login_failed ⟨login_failed_msg idv, none, some d⟩)) :=
  ⟨rfl, rfl⟩

/-- C1 is false as stated: on a concrete `run_command` whose output holds
a caret-marker banner, the `CiscoCommandError`'s `data` payload is the
cleaned output STILL containing the banner (the classifier reports the
surviving output `["foo bar"]`, but `_process_command_result` discards
that component, cisco.py line 461, and passes the pre-excision text). -/
theorem c1_counterexample :
    run_command ⟨S "sw1", none, none, none, none, none, none, none,
        false, none⟩
      false false (S "show run") (some (S "device>"))
      (.matched 64 (S "show run\nfoo bar\n    ^\n% Invalid input detected at \x27^\x27 marker.\n\ndevice>"))
      true true true false
    = ([.write (S "show run\n"), .wait [S "device>"]],
       .error (.cisco_command_error
         ⟨cisco_command_error_msg (S "sw1") (S "show run"),
          some (S "show run"),
          some (S "foo bar\n    ^\n% Invalid input detected at \x27^\x27 marker.")⟩
         (S "    ^\n% Invalid input detected at \x27^\x27 marker.")))
    ∧ process_device_errors
        (S "foo bar\n    ^\n% Invalid input detected at \x27^\x27 marker.")
      = some ([S "    ^", S "% Invalid input detected at \x27^\x27 marker."],
              [S "foo bar"])
    ∧ (S "foo bar\n    ^\n% Invalid input detected at \x27^\x27 marker.")
        ≠ S "foo bar" :=
  ⟨by decide, by decide, by decide⟩

/-- C1 (amended): when the terminating pattern matches and the classifier
finds a device error banner in the cleaned output, `run_command` fails
with `CiscoCommandError` carrying the (whitespace-stripped) command, the
extracted error text (the banner lines joined by newlines), and, as its
`data` payload, the cleaned output text itself — which still contains the
banner; the classifier's banner-excised surviving output is discarded. -/
theorem c1_amended (dev : Device) (en : Bool) (cmd p data : Str)
    (start : Nat) (sc sp : Bool) (el dl : List Str)
    (h : process_device_errors (clean_output start data (strip cmd) sc sp)
      = some (el, dl)) :
    run_command dev en false cmd (some p) (.matched start data) sc sp
      true false
    = ([.write (strip cmd ++ S "\n"), .wait [p]],
       .error (.cisco_command_error
         ⟨cisco_command_error_msg dev.id (strip cmd), some (strip cmd),
          some (clean_output start data (strip cmd) sc sp)⟩
         (join_nl el))) := by
  show ([IOEvent.write (strip cmd ++ S "\n"), IOEvent.wait [p]],
    process_command_result start data dev.id (strip cmd) sc sp true) = _
  simp [process_command_result, h]

/-- Witness for C1 (amended) at a concrete input with a marker-less
banner. -/
theorem c1_amended_witness :
    process_device_errors
        (clean_output 8 (S "c\n% bad\np>") (strip (S "c")) true true)
      = some ([S "% bad"], [])
    ∧ run_command ⟨S "d", none, none, none, none, none, none, none,
        false, none⟩
      false false (S "c") (some (S "p>")) (.matched 8 (S "c\n% bad\np>"))
      true true true false
    = ([.write (strip (S "c") ++ S "\n"), .wait [S "p>"]],
       .error (.cisco_command_error
         ⟨cisco_command_error_msg (S "d") (strip (S "c")),
          some (strip (S "c")),
          some (clean_output 8 (S "c\n% bad\np>") (strip (S "c")) true true)⟩
         (join_nl [S "% bad"]))) :=
  ⟨by decide,
   c1_amended ⟨S "d", none, none, none, none, none, none, none, false, none⟩
     false (S "c") (S "p>") (S "c\n% bad\np>") 8 true true
     [S "% bad"] [] (by decide)⟩

/-- C2 is false as stated: when the enable-password prompt is not
observed within the timeout (the escalation command-execution cycle fails
with a plain `RequestFailed`), `enable` settles with the
`UnexpectedResultError` produced inside the command cycle, not with
`EnableFailed`: `_on_enable_failure` traps only raw `RequestFailed`, and
the already-converted `UnexpectedResultError` is re-raised verbatim. -/
theorem c2_counterexample :
    enable ⟨S "d1", none, none, none, none, some (S "enable"),
        some (S "Password: "), some (S "pw"), false, none⟩
      false false (.timeout (S "garbage")) (.matched 0 [])
    = ([.write (S "enable\n"), .wait [S "Password: "]],
       .error (.unexpected_result
         ⟨unexpected_cmd_msg (S "enable") [S "Password: "] (S "garbage"),
          none, none⟩),
       false)
    ∧ (enable ⟨S "d1", none, none, none, none, some (S "enable"),
        some (S "Password: "), some (S "pw"), false, none⟩
      false false (.timeout (S "garbage")) (.matched 0 [])).2.1
      ≠ .error (.enable_failed
          ⟨enable_failed_msg (S "d1"), none, some (S "garbage")⟩) :=
  ⟨by decide, by decide⟩

/-- C2 (amended): only a failure of the wait for the privileged prompt
after the enable password is written (timeout or connection loss, both
`RequestFailed`) makes `enable` fail with `EnableFailed` carrying the
accumulated text; when the enable-password prompt is not observed as the
terminator of the escalation command cycle, that cycle's own
`UnexpectedResultError` propagates verbatim instead. -/
theorem c2_amended (idv ec epp epw epr d : Str)
    (pro ppo pwo dpco : Option Str) (dp : Bool) (en : Bool)
    (pwk : ExpectOutcome) :
    enable ⟨idv, pro, some epr, ppo, pwo, some ec, some epp, some epw,
        dp, dpco⟩
      en false (.matched 0 []) (.timeout d)
    = ([.write (strip ec ++ S "\n"), .wait [epp],
        .write (epw ++ S "\n"), .wait [epr]],
       .error (.enable_failed ⟨enable_failed_msg idv, none, some d⟩), en)
    ∧ enable ⟨idv, pro, some epr, ppo, pwo, some ec, some epp, some epw,
        dp, dpco⟩
      en false (.matched 0 []) (.conn_lost d)
    = ([.write (strip ec ++ S "\n"), .wait [epp],
        .write (epw ++ S "\n"), .wait [epr]],
       .error (.enable_failed ⟨enable_failed_msg idv, none, some d⟩), en)
    ∧ enable ⟨idv, pro, some epr, ppo, pwo, some ec, some epp, some epw,
        dp, dpco⟩
      en false (.timeout d) pwk
    = ([.write (strip ec ++ S "\n"), .wait [epp]],
       .error (.unexpected_result
         ⟨unexpected_cmd_msg (strip ec) [epp] d, none, none⟩), en) := by
  refine ⟨?_, ?_, rfl⟩ <;>
    · unfold enable dev_get
      dsimp only
      rw [run_command_matched_nil]
      rfl

/-- C3 is false as stated: the three-line extraction breaks at the edge
positions, in a way that depends on the length of the text.  On these
concrete inputs: with the caret-marker line first in a three-line text,
Python's negative-slice arithmetic (`lines[-1:2]` on a list of length 3)
yields an empty error text and leaves the banner inside the surviving
output; with it first in a two-line text, `lines[-1:2]` is `lines[1:2]`,
so the single extracted "error" line is the FOLLOWING line, not the
banner; with it last, only two lines are extracted.  None of these is the
claimed three-line banner with the remaining lines as surviving
output. -/
theorem c3_counterexample :
    process_device_errors (S "% first at \x27^\x27 marker\nx\ny")
      = some ([], [S "% first at \x27^\x27 marker", S "x", S "y"])
    ∧ process_device_errors (S "% x at \x27^\x27 marker\nfoo")
      = some ([S "foo"], [S "% x at \x27^\x27 marker"])
    ∧ process_device_errors (S "foo\n    ^\n% bad at \x27^\x27 marker")
      = some ([S "    ^", S "% bad at \x27^\x27 marker"], [S "foo"]) :=
  ⟨by decide, by decide, by decide⟩

/-- C3 (amended): for every text whose first `'%'` line references the
caret-marker convention and is neither the first nor the last line (there
is at least one line before it and one after it), the classifier extracts
exactly the three lines around it (preceding line, the `'%'` line, the
following line, in original order) as the error, and returns every other
line, in original relative order, as surviving output, for every such
interior position of the banner.  (At the first or last position the
three-line extraction does not hold: see the concrete counterexamples.) -/
theorem c3_amended (pre post : List Str) (caret pct next : Str)
    (hnl : ∀ l ∈ pre ++ caret :: pct :: next :: post, '\n' ∉ l)
    (hpre : ∀ l ∈ pre, startswith l (S "%") = false)
    (hcaret : startswith caret (S "%") = false)
    (hpct : startswith pct (S "%") = true)
    (htag : contains_sub marker_tag pct = true) :
    process_device_errors (join_nl (pre ++ caret :: pct :: next :: post))
      = some ([caret, pct, next], pre ++ post) := by
  have hLne : pre ++ caret :: pct :: next :: post ≠ [] := by
    cases pre <;> simp
  have hfind : find_pct (pre ++ caret :: pct :: next :: post) 0
      = some (pre.length + 1, pct) := by
    rw [find_pct_append pre _ 0 hpre]
    simp only [find_pct, hcaret, Bool.false_eq_true, if_false, hpct,
      if_true, Nat.zero_add]
  unfold process_device_errors
  rw [split_nl_join _ hLne hnl]
  simp only [hfind]
  rw [if_pos htag, py_slice_sub1, py_slice_sub2, py_slice_sub3]

/-- Witness for C3 (amended): a banner in the middle of a five-line
text. -/
theorem c3_amended_witness :
    process_device_errors
      (join_nl ([S "a"] ++ (S "  ^") :: (S "% x at \x27^\x27 marker")
        :: (S "") :: [S "b"]))
    = some ([S "  ^", S "% x at \x27^\x27 marker", S ""],
            [S "a"] ++ [S "b"]) :=
  c3_amended [S "a"] [S "b"] (S "  ^") (S "% x at \x27^\x27 marker") (S "")
    (by decide) (by decide) (by decide) (by decide) (by decide)

/-- C4 is false as stated: `login()` against a profile that has the
password prompt but lacks `password` performs the password-prompt
pattern-wait (one I/O action) BEFORE failing with the `KeyError` for the
missing key — the failure is not raised before I/O. -/
theorem c4_counterexample :
    login ⟨S "d1", some (S "d>"), none, some (S "Password:"), none, none,
        none, none, false, none⟩
      false false (.matched 0 (S "Password:")) .engine_other .engine_other
    = ([.wait [S "Password:"]], .error (.key_error "password"))
    ∧ ([IOEvent.wait [S "Password:"]] : List IOEvent) ≠ [] :=
  ⟨by decide, by decide⟩

/-- C4 (amended): device-profile keys read at the very start of an
operation (login's `password_prompt`; enable's `enable_command` and
`enable_password_prompt`; `run_command`'s `prompt` or `enabled_prompt`
when no override is given) fail loudly with an empty I/O trace, before
any write or pattern-wait; keys first read inside a later callback
(login's `password`; enable's `enable_password` and `enabled_prompt`)
also fail loudly, but only after the operation has already performed
I/O. -/
theorem c4_amended :
    (∀ (idv : Str) (pro epo pwo eco eppo epwo dpco : Option Str)
       (dp : Bool) (w1 w2 w3 : ExpectOutcome),
      login ⟨idv, pro, epo, none, pwo, eco, eppo, epwo, dp, dpco⟩
        false false w1 w2 w3
      = ([], .error (.key_error "password_prompt")))
    ∧ (∀ (idv : Str) (epo ppo pwo eco eppo epwo dpco : Option Str)
         (dp : Bool) (cmd : Str) (o : ExpectOutcome) (sc sp pe md : Bool),
      run_command ⟨idv, none, epo, ppo, pwo, eco, eppo, epwo, dp, dpco⟩
        false false cmd none o sc sp pe md
      = ([], .error (.key_error "prompt")))
    ∧ (∀ (idv : Str) (pro ppo pwo eco eppo epwo dpco : Option Str)
         (dp : Bool) (cmd : Str) (o : ExpectOutcome) (sc sp pe md : Bool),
      run_command ⟨idv, pro, none, ppo, pwo, eco, eppo, epwo, dp, dpco⟩
        true false cmd none o sc sp pe md
      = ([], .error (.key_error "enabled_prompt")))
    ∧ (∀ (idv : Str) (pro epo ppo pwo eppo epwo dpco : Option Str)
         (dp en : Bool) (w1 w2 : ExpectOutcome),
      enable ⟨idv, pro, epo, ppo, pwo, none, eppo, epwo, dp, dpco⟩
        en false w1 w2
      = ([], .error (.key_error "enable_command"), en))
    ∧ (∀ (idv ec : Str) (pro epo ppo pwo epwo dpco : Option Str)
         (dp en : Bool) (w1 w2 : ExpectOutcome),
      enable ⟨idv, pro, epo, ppo, pwo, some ec, none, epwo, dp, dpco⟩
        en false w1 w2
      = ([], .error (.key_error "enable_password_prompt"), en))
    ∧ (∀ (idv pp : Str) (pro epo eco eppo epwo dpco : Option Str)
         (dp : Bool) (m : Nat) (x : Str) (w2 w3 : ExpectOutcome),
      login ⟨idv, pro, epo, some pp, none, eco, eppo, epwo, dp, dpco⟩
        false false (.matched m x) w2 w3
      = ([.wait [pp]], .error (.key_error "password"))
      ∧ ([IOEvent.wait [pp]] : List IOEvent) ≠ [])
    ∧ (∀ (idv ec epp : Str) (pro epo ppo pwo dpco : Option Str)
         (dp en : Bool) (w2 : ExpectOutcome),
      enable ⟨idv, pro, epo, ppo, pwo, some ec, some epp, none, dp, dpco⟩
        en false (.matched 0 []) w2
      = ([.write (strip ec ++ S "\n"), .wait [epp]],
         .error (.key_error "enable_password"), en)
      ∧ ([IOEvent.write (strip ec ++ S "\n"), IOEvent.wait [epp]]
          : List IOEvent) ≠ [])
    ∧ (∀ (idv ec epp epw : Str) (pro ppo pwo dpco : Option Str)
         (dp en : Bool) (w2 : ExpectOutcome),
      enable ⟨idv, pro, none, ppo, pwo, some ec, some epp, some epw,
          dp, dpco⟩
        en false (.matched 0 []) w2
      = ([.write (strip ec ++ S "\n"), .wait [epp],
          .write (epw ++ S "\n")],
         .error (.key_error "enabled_prompt"), en)
      ∧ ([IOEvent.write (strip ec ++ S "\n"), IOEvent.wait [epp],
          IOEvent.write (epw ++ S "\n")] : List IOEvent) ≠ []) := by
  refine ⟨?_, ?_, ?_, ?_, ?_, ?_, ?_, ?_⟩
  · intro idv pro epo pwo eco eppo epwo dpco dp w1 w2 w3
    rfl
  · intro idv epo ppo pwo eco eppo epwo dpco dp cmd o sc sp pe md
    rfl
  · intro idv pro ppo pwo eco eppo epwo dpco dp cmd o sc sp pe md
    rfl
  · intro idv pro epo ppo pwo eppo epwo dpco dp en w1 w2
    rfl
  · intro idv ec pro epo ppo pwo epwo dpco dp en w1 w2
    rfl
  · intro idv pp pro epo eco eppo epwo dpco dp m x w2 w3
    exact ⟨rfl, by simp⟩
  · intro idv ec epp pro epo ppo pwo dpco dp en w2
    refine ⟨?_, by simp⟩
    unfold enable dev_get
    dsimp only
    rw [run_command_matched_nil]
  · intro idv ec epp epw pro ppo pwo dpco dp en w2
    refine ⟨?_, by simp⟩
    unfold enable dev_get
    dsimp only
    rw [run_command_matched_nil]
    rfl

end TexpectCisco
